import Mathlib

/-!
# Verification of the snyker transport / resolution core

Shallow embedding of the `snyker` Python SDK (files `snyker/api_client.py`,
`snyker/config.py`, `snyker/group.py`, `snyker/project.py`,
`snyker/organization.py`, `snyker/issue.py`) together with theorems checking
the natural-language specification against it.

Times and durations are modelled as rationals, Python dicts of query
parameters as association lists, and JSON payloads as structures carrying
exactly the fields the embedded code inspects.  Fallible paths are modelled
with `Option`/`Except`.
-/

namespace Snyker

/-- Query parameters: a Python dict of string keys, as an association list. -/
abbrev Params := List (String × String)

/-! ## Rate limiting (`api_client.py`, `APIClient._rate_limit` / `_handle_response`)

`APIClient` keeps `rate_limit_delay` and `last_request_time` (both floats,
modelled as `ℚ`), guarded by `_rate_limit_lock`; the lock serialises access and
is not itself modelled. -/

/-- `rate_limit_delay` / `last_request_time` of `APIClient`. -/
structure RateLimitState where
  rateLimitDelay : ℚ
  lastRequestTime : ℚ
  deriving Repr, DecidableEq

/-- Python `str.isdigit` restricted to ASCII digits, which is all the code
relies on for `Retry-After` values; the empty string is not a digit string. -/
def pyIsDigit (s : String) : Bool :=
  s.length > 0 && s.toList.all Char.isDigit

/-- Python `int(...)` on a digit string. -/
def parseDigits (s : String) : Nat :=
  s.toList.foldl (fun acc c => acc * 10 + (c.toNat - 48)) 0

/-- `API_CONFIG["default_rate_limit_retry_after"]`
(`config.py`, `DEFAULT_API_CLIENT_CONFIG`): 5.0 seconds. -/
def defaultRateLimitRetryAfter : ℚ := 5

/-- The 429 branch of `APIClient._handle_response`: sets
`last_request_time = current_time` and recomputes `rate_limit_delay` from the
`Retry-After` header: `float(int(header) + 1)` when the header is present and
made of digits, else `max(rate_limit_delay, default_rate_limit_retry_after)`. -/
def handle429 (retryAfter : Option String) (currentTime : ℚ)
    (st : RateLimitState) : RateLimitState :=
  let delay : ℚ :=
    match retryAfter with
    | some h =>
        if pyIsDigit h then ((parseDigits h + 1 : ℕ) : ℚ)
        else max st.rateLimitDelay defaultRateLimitRetryAfter
    | none => max st.rateLimitDelay defaultRateLimitRetryAfter
  { rateLimitDelay := delay, lastRequestTime := currentTime }

/-- `APIClient._rate_limit`, run at time `now`: returns the duration slept
before the request proceeds, and the state afterwards.  When a delay is
active it sleeps `rate_limit_delay - (now - last_request_time)` (if positive)
and then resets `rate_limit_delay` to `0.0`. -/
def rateLimitWait (now : ℚ) (st : RateLimitState) : ℚ × RateLimitState :=
  if st.rateLimitDelay ≤ 0 then (0, st)
  else
    let waitTime := st.rateLimitDelay - (now - st.lastRequestTime)
    let sleepFor := if waitTime > 0 then waitTime else 0
    (sleepFor, { st with rateLimitDelay := 0 })

/-! ## Pagination (`api_client.py`, `APIClient.paginate`)

The generator loop is embedded as a fuel-indexed recursion producing the
trace of HTTP requests issued (endpoint plus the `params` argument handed to
`self.get`) and the values yielded.  The environment maps an endpoint to the
decoded JSON of the response; `none` models a `JSONDecodeError` (the code
logs and breaks).  A raising `get` simply truncates the observable trace, so
it needs no separate constructor.  `PageJson.nextLink = none` covers a
missing/null/empty `links[pagination_key]` as well as a malformed `links`
value (all of which end the loop). -/

/-- The value found at `data_key` in a page: a list, or a non-list value
(yielded as a single item with a warning). -/
inductive DataVal (α : Type) where
  | list : List α → DataVal α
  | single : α → DataVal α
  deriving Repr, DecidableEq

/-- The parts of a page's JSON that `paginate` inspects: the value at
`data_key` (`none` = key absent) and `links[pagination_key]`. -/
structure PageJson (α : Type) where
  dataVal : Option (DataVal α)
  nextLink : Option String
  deriving Repr, DecidableEq

/-- One value yielded by the generator: an item (when `data_key` is given) or
a whole page. -/
inductive PageYield (α : Type) where
  | item : α → PageYield α
  | page : PageJson α → PageYield α
  deriving Repr, DecidableEq

/-- One HTTP request issued from inside `paginate`: the endpoint string and
the `params` argument passed to `APIClient.get` (`none` is Python `None`). -/
structure Request where
  endpoint : String
  params : Option Params
  deriving Repr, DecidableEq

/-- If `pat` starts the character list, the remainder after it; else `none`.
Structural recursion so that terms evaluate inside the kernel. -/
def dropLead : List Char → List Char → Option (List Char)
  | l, [] => some l
  | [], _ :: _ => none
  | c :: cs, p :: ps => if c = p then dropLead cs ps else none

/-- Python `s.startswith(pre)`. -/
def strStartsWith (s pre : String) : Bool :=
  (dropLead s.toList pre.toList).isSome

/-- Remove the first occurrence of `pat` from a character list. -/
def replaceOnceL (pat : List Char) : List Char → List Char
  | [] => []
  | c :: cs =>
    match dropLead (c :: cs) pat with
    | some rest => rest
    | none => c :: replaceOnceL pat cs

/-- Python `s.replace(pat, "", 1)`: remove the first occurrence of `pat`. -/
def replaceOnce (s pat : String) : String :=
  String.mk (replaceOnceL pat.toList s.toList)

/-- `paginate`'s test for an absolute next-page URL: starts with the base URL
or with an `http://` / `https://` scheme. -/
def isFullUrl (baseUrl url : String) : Bool :=
  strStartsWith url baseUrl || strStartsWith url "http://" || strStartsWith url "https://"

/-- The endpoint `paginate` passes to `get`: full URLs that start with the
base URL get `base_url + "/"` removed once, other URLs go through verbatim. -/
def callEndpoint (baseUrl url : String) : String :=
  if isFullUrl baseUrl url then
    (if strStartsWith url baseUrl then replaceOnce url (baseUrl ++ "/") else url)
  else url

/-- The `params` argument `paginate` passes to `get`: for a full URL,
`current_params` on the first page and `None` afterwards; for a relative
path, always `current_params`. -/
def callParams (baseUrl url : String) (currentParams : Params) (pageCount : Nat) :
    Option Params :=
  if isFullUrl baseUrl url then
    (if pageCount == 0 then some currentParams else none)
  else some currentParams

/-- `underMaxPages maxPages pageCount` is
`max_pages is None or page_count < max_pages`. -/
def underMaxPages (maxPages : Option Nat) (pageCount : Nat) : Bool :=
  match maxPages with
  | none => true
  | some m => decide (pageCount < m)

/-- The `data_key` handling of one page: `some yields` to continue, `none`
when `data_key` was given but absent from the page (warn and break). -/
def pageStep {α : Type} (hasDataKey : Bool) (page : PageJson α) :
    Option (List (PageYield α)) :=
  if hasDataKey then
    match page.dataVal with
    | some (DataVal.list items) => some (items.map PageYield.item)
    | some (DataVal.single it) => some [PageYield.item it]
    | none => none
  else some [PageYield.page page]

/-- The `while` loop of `APIClient.paginate`, run with `fuel` remaining
iterations (the loop is potentially infinite; every theorem quantifies over
`fuel`).  State: the pending next URL (`none` ends the loop, covering falsy
links), `current_params`, and `page_count`.  After a page with a next link
the loop recurses with `current_params = {}` (`api_client.py` line 401). -/
def paginateLoop {α : Type} (env : String → Option (PageJson α)) (baseUrl : String)
    (hasDataKey : Bool) (maxPages : Option Nat) :
    Nat → Option String → Params → Nat → List Request × List (PageYield α)
  | 0, _, _, _ => ([], [])
  | _ + 1, none, _, _ => ([], [])
  | fuel + 1, some url, currentParams, pageCount =>
    if underMaxPages maxPages pageCount then
      let req : Request :=
        ⟨callEndpoint baseUrl url, callParams baseUrl url currentParams pageCount⟩
      match env req.endpoint with
      | none => ([req], [])
      | some page =>
        match pageStep hasDataKey page with
        | none => ([req], [])
        | some ys =>
          match page.nextLink with
          | none => ([req], ys)
          | some l =>
            let rest :=
              paginateLoop env baseUrl hasDataKey maxPages fuel (some l) []
                (pageCount + 1)
            (req :: rest.1, ys ++ rest.2)
    else ([], [])

/-- `APIClient.paginate`: start at the caller's endpoint with a copy of the
caller's params and `page_count = 0`. -/
def paginate {α : Type} (env : String → Option (PageJson α)) (baseUrl : String)
    (endpoint : String) (params : Params) (hasDataKey : Bool)
    (maxPages : Option Nat) (fuel : Nat) : List Request × List (PageYield α) :=
  paginateLoop env baseUrl hasDataKey maxPages fuel (some endpoint) params 0

/-! ## Concurrent fan-out collection (`group.py` / `organization.py`)

`fetch_organizations`, `fetch_issues`, `get_projects`, … all share the same
batch pattern: submit one construction task per payload, then iterate
`concurrent.futures.as_completed`, appending each successful result and
catching each task's exception individually with an error log.  A task
outcome is an `Except`; the completion order is an arbitrary permutation of
the submission order, so the collection functions take the outcome list in
completion order and the theorems quantify over all permutations of the
submitted tasks. -/

/-- The `for future in as_completed(...)` loop: successful results in
completion order, plus the number of error-logged failures. -/
def collectResults {ε α : Type} : List (Except ε α) → List α × Nat
  | [] => ([], 0)
  | Except.ok a :: rest =>
    let r := collectResults rest
    (a :: r.1, r.2)
  | Except.error _ :: rest =>
    let r := collectResults rest
    (r.1, r.2 + 1)

/-- Number of failed outcomes in a task list. -/
def countErr {ε α : Type} (l : List (Except ε α)) : Nat :=
  l.countP fun x => match x with | Except.error _ => true | _ => false

/-- Observable outcome of one `fetch_*` relationship call: the returned
list, the cache afterwards, whether the API was queried, and how many error
log lines were emitted. -/
structure FetchResult (α : Type) where
  returned : List α
  cache : Option (List α)
  queried : Bool
  errorLogs : Nat
  deriving Repr, DecidableEq

/-! ## `GroupPydanticModel` (`group.py`) -/

/-- `GroupPydanticModel.fetch_organizations` (group.py lines 173–234).
`cache` is `self._organizations`; `pages` is the outcome of paginating
`/rest/groups/{id}/orgs` with the version/limit defaults merged with
`params` (`Except.error` = the pagination loop raised); `completed` is the
list of `OrganizationPydanticModel.from_api_response` task outcomes in
completion order.  The method returns the cached list — for every `params`
— whenever the cache is set (line 187). -/
def fetchOrganizations {π α : Type} (cache : Option (List α)) (params : Params)
    (pages : Except String (List π)) (completed : List (Except String α)) :
    FetchResult α :=
  match cache with
  | some l => ⟨l, some l, false, 0⟩
  | none =>
    match pages with
    | Except.error _ => ⟨[], some [], true, 1⟩
    | Except.ok items =>
      if items.isEmpty then ⟨[], some [], true, 0⟩
      else
        let r := collectResults completed
        ⟨r.1, some r.1, true, r.2⟩

/-- `GroupPydanticModel.fetch_issues` (group.py lines 236–296): the cache is
only consulted — and only written — when `params` is empty (`not params`);
with params the fresh list is returned and the cache left untouched. -/
def groupFetchIssues {π α : Type} (cache : Option (List α)) (params : Params)
    (pages : Except String (List π)) (completed : List (Except String α)) :
    FetchResult α :=
  match cache, params with
  | some l, [] => ⟨l, some l, false, 0⟩
  | _, _ =>
    match pages with
    | Except.error _ => ⟨[], if params = [] then some [] else cache, true, 1⟩
    | Except.ok items =>
      if items.isEmpty then ⟨[], if params = [] then some [] else cache, true, 0⟩
      else
        let r := collectResults completed
        ⟨r.1, if params = [] then some r.1 else cache, true, r.2⟩

/-- `ProjectPydanticModel.fetch_issues` (project.py lines 272–308): returns
the cache whenever it is set, for every `params`; otherwise delegates to the
organization's `fetch_issues` (result `fromOrg`) and caches it. -/
def projectFetchIssues {α : Type} (cache : Option (List α)) (params : Params)
    (fromOrg : List α) : FetchResult α :=
  match cache with
  | some l => ⟨l, some l, false, 0⟩
  | none => ⟨fromOrg, some fromOrg, true, 0⟩

/-- Raw group payload: `id`/`type` plus `attributes.name` when present
(`attributes = none` covers a missing `attributes` key or missing `name`,
both of which `get_instance` rejects). -/
structure GroupPayload where
  id : String
  type : String
  attributes : Option String
  deriving Repr, DecidableEq

/-- The completeness check of `get_instance` (group.py line 126):
`not group_data or 'attributes' not in group_data or 'name' not in
group_data['attributes']` raises `ValueError`. -/
def validateGroupData (d : GroupPayload) : Except String GroupPayload :=
  match d.attributes with
  | some _ => Except.ok d
  | none => Except.error "Failed to initialize group. Data incomplete."

/-- `GroupPydanticModel.get_instance` (group.py lines 81–140).  `fetchById`
is `_fetch_group_data_by_id` (which re-raises as `ValueError`);
`allGroups` is the list `_fetch_all_groups_data` collected.  A falsy
`group_id` (Python truthiness: `None` or `""`) triggers auto-discovery,
which raises unless exactly one group is accessible.  The eager-loading
fetches after construction do not affect the returned value and are not
modelled. -/
def getInstance (groupId : Option String)
    (fetchById : String → Except String GroupPayload)
    (allGroups : List GroupPayload) : Except String GroupPayload :=
  let discover : Except String GroupPayload :=
    match allGroups with
    | [d] => validateGroupData d
    | [] => Except.error "No groups found for this token."
    | _ => Except.error
        ("Multiple groups found (" ++ toString allGroups.length ++
          "). Please specify group_id.")
  match groupId with
  | none => discover
  | some gid =>
    if gid = "" then discover
    else
      match fetchById gid with
      | Except.error e => Except.error e
      | Except.ok d => validateGroupData d

/-! ## `ProjectPydanticModel.from_api_response` (`project.py`) -/

/-- Raw project payload: the keys `from_api_response` and pydantic
validation inspect.  `attributes`/`relationships` are `none` when the key is
absent (a summary payload). -/
structure ProjPayload (A R : Type) where
  id : Option String
  type : Option String
  attributes : Option A
  relationships : Option R
  deriving Repr, DecidableEq

/-- A validated `ProjectPydanticModel`: pydantic requires `id`, `type` and
`attributes` (with its required `name`); `relationships` stays optional. -/
structure ProjectModel (A R : Type) where
  id : String
  type : String
  attributes : A
  relationships : Option R
  deriving Repr, DecidableEq

/-- `cls(**project_data)`: pydantic validation of a project payload. -/
def validateProject {A R : Type} (d : ProjPayload A R) :
    Except String (ProjectModel A R) :=
  match d.id, d.type, d.attributes with
  | some i, some t, some a => Except.ok ⟨i, t, a, d.relationships⟩
  | _, _, _ => Except.error "validation error"

/-- The single-item endpoint `from_api_response` hydrates from. -/
def projectEndpoint (orgId pid : String) : String :=
  "/rest/orgs/" ++ orgId ++ "/projects/" ++ pid

/-- `ProjectPydanticModel.from_api_response` (project.py lines 96–154).
With `fetch_full_details_if_summary` set and `attributes` or
`relationships` missing, it synchronously GETs the single-item endpoint
first: `env` returns the decoded body's `data` (`Except.error` = the GET
raised, logged and swallowed, keeping the original payload; `Except.ok
none` = no `data` key, ditto via `.get('data', project_data)`).  Then
pydantic validation runs on the (possibly replaced) payload. -/
def projectFromApiResponse {A R : Type}
    (env : String → Except String (Option (ProjPayload A R)))
    (orgId : String) (d : ProjPayload A R) (fetchFull : Bool) :
    Except String (ProjectModel A R) :=
  if fetchFull && (d.attributes.isNone || d.relationships.isNone) then
    match d.id with
    | none => Except.error "Project data must contain an id to fetch full details."
    | some pid =>
      match env (projectEndpoint orgId pid) with
      | Except.error _ => validateProject d
      | Except.ok none => validateProject d
      | Except.ok (some full) => validateProject full
  else validateProject d

/-! ## Issue → Project resolution

`GroupPydanticModel.fetch_issues` constructs `IssuePydanticModel`
(`snyker/__init__.py`, `group.py`, `project.py` and the tests all import
it), but `snyker/issue.py` in this tree holds an earlier `Issue` revision;
the pydantic issue module with the group-cache fallback is not present, so
its project resolution is modelled from the spec.  The delegate
`Organization.get_project` is embedded from `organization.py`. -/

/-- The constructed project reference returned by
`Organization.get_project`: carries the id taken from the response's
`data['id']`. -/
structure ProjRef where
  id : String
  deriving Repr, DecidableEq

/-- `Organization.get_project` (organization.py lines 432–468): GET the
single-project endpoint; on any exception (caught, error-logged) or a
missing `data` (warned) return `None`, else construct the project from
`data['id']`. -/
def orgGetProject (env : String → Except String (Option ProjRef))
    (orgId pid : String) : Option ProjRef :=
  match env (projectEndpoint orgId pid) with
  | Except.error _ => none
  | Except.ok none => none
  | Except.ok (some d) => some d

/-- The parts of an issue that project resolution reads: the cached
project, the attached organization context, and the relationship stubs
(`scan_item` of type `project`, and `organization`). -/
structure IssueCtx where
  cachedProject : Option ProjRef
  attachedOrg : Option String
  projectStub : Option String
  orgStub : Option String
  deriving Repr, DecidableEq

/-- The group context the issue resolves through: its cached organization
list (ids), `none` when organizations were never fetched. -/
structure GroupCtx where
  organizations : Option (List String)
  deriving Repr, DecidableEq

/-- Modelled from the spec: the Organization-context lookup of
`IssuePydanticModel`'s project resolution (the pydantic issue module is
absent from this tree) — "use the one already attached, or — if absent —
look up the organization id found in the Issue's own relationship stub
against the owning Group's cached organization list". -/
def resolveOrgContext (issue : IssueCtx) (group : GroupCtx) : Option String :=
  match issue.attachedOrg with
  | some o => some o
  | none =>
    match issue.orgStub with
    | none => none
    | some oid =>
      match group.organizations with
      | none => none
      | some orgs => if oid ∈ orgs then some oid else none

/-- Modelled from the spec: `IssuePydanticModel`'s project resolution (the
pydantic issue module is absent from this tree) — resolve an Organization
context and delegate to that Organization's "get one project by id" call;
"if no Organization context can be established at all, resolution returns
an empty/unset result and logs a warning; it does not raise".  Returns the
resolved project and the number of warning log lines; it is a total
function, the no-context path yields `(none, 1)` rather than an error. -/
def issueGetProject (env : String → Except String (Option ProjRef))
    (issue : IssueCtx) (group : GroupCtx) : Option ProjRef × Nat :=
  match issue.cachedProject with
  | some p => (some p, 0)
  | none =>
    match issue.projectStub with
    | none => (none, 1)
    | some pid =>
      match resolveOrgContext issue group with
      | none => (none, 1)
      | some oid => (orgGetProject env oid pid, 0)

/-! ## `Organization.get_projects` (`organization.py`) -/

/-- Raw project payload as `get_projects` sees it: only
`project_data.get('id')` is inspected before submission. -/
structure OrgProjPayload where
  id : Option String
  deriving Repr, DecidableEq

/-- Python truthiness of `project_data.get('id')`: a missing key or an
empty string is falsy and the payload is skipped with a warning. -/
def truthyId (p : OrgProjPayload) : Option String :=
  match p.id with
  | none => none
  | some s => if s = "" then none else some s

/-- The submission loop of `Organization.get_projects` (organization.py
lines 400–414): one construction task per payload with a truthy id;
id-less payloads are logged (a warning, not an error) and skipped — they
never reach the worker pool. -/
def orgProjectsSubmitted (items : List OrgProjPayload) : List String :=
  items.filterMap truthyId

/-- `Organization.get_projects` (organization.py lines 354–430): paginate
(`Except.error` = the pagination loop raised: error log, cache `[]`,
return `[]`); an empty payload list caches and returns `[]`; otherwise the
completed construction outcomes — one per *submitted* payload — are
collected with per-task error logging, and the survivors are cached and
returned.  There is no cache-read guard: `self.projects` is rewritten on
every call. -/
def orgGetProjects {α : Type} (pages : Except String (List OrgProjPayload))
    (completed : List (Except String α)) : FetchResult α :=
  match pages with
  | Except.error _ => ⟨[], some [], true, 1⟩
  | Except.ok items =>
    if items.isEmpty then ⟨[], some [], true, 0⟩
    else
      let r := collectResults completed
      ⟨r.1, some r.1, true, r.2⟩

/-- Payloads of the id-skip demonstration: three from pagination, the
middle one without an id. -/
def demoOrgItems : List OrgProjPayload := [⟨some "a"⟩, ⟨none⟩, ⟨some "b"⟩]

/-- Construction outcome map of the id-skip demonstration: project `b`
fails construction, the rest succeed. -/
def demoConstructP : String → Except String String :=
  fun s => if s = "b" then Except.error "bad" else Except.ok s

/-- Construction outcome map of the partial-failure demonstration: payload
`1` fails, the others construct. -/
def demoConstruct : Nat → Except String Nat :=
  fun n => if n = 1 then Except.error "boom" else Except.ok n

/-- Base URL of the demonstration environment. -/
def demoBase : String := "https://api.snyk.io"

/-- Caller params of the demonstration pagination run. -/
def demoParams : Params := [("limit", "100")]

/-- A two-page environment: the first page's next-link already carries its
own query string (`starting_after=abc`). -/
def demoEnv : String → Option (PageJson Nat) := fun ep =>
  if ep = "/rest/orgs" then
    some ⟨some (DataVal.list [1, 2]), some "https://api.snyk.io/rest/orgs?starting_after=abc"⟩
  else if ep = "rest/orgs?starting_after=abc" then
    some ⟨some (DataVal.list [3]), none⟩
  else none

end Snyker

open Snyker

/-- C4: the claim says the stored cooldown duration equals the `Retry-After`
value itself; the code stores `Retry-After + 1` (a one-second buffer).  With
header `"3"` the stored delay is `4`, not `3`. -/
theorem handle429_retry_after_plus_one :
    (handle429 (some "3") 0 ⟨0, 0⟩).rateLimitDelay = 4 ∧ (4 : ℚ) ≠ 3 := by
  exact ⟨by decide, by norm_num⟩

/-- C4 (amended): on a 429, `last_request_time` becomes the current time, and
the stored delay is `Retry-After + 1` when the header is present and numeric,
else the maximum of the previous delay and the configured default of 5s. -/
theorem handle429_cooldown_rule (retryAfter : Option String) (now : ℚ)
    (st : RateLimitState) :
    (handle429 retryAfter now st).lastRequestTime = now ∧
    ((∃ h, retryAfter = some h ∧ pyIsDigit h = true ∧
        (handle429 retryAfter now st).rateLimitDelay = (parseDigits h : ℚ) + 1) ∨
      ((∀ h, retryAfter = some h → pyIsDigit h = false) ∧
        (handle429 retryAfter now st).rateLimitDelay
          = max st.rateLimitDelay defaultRateLimitRetryAfter)) := by
  refine ⟨rfl, ?_⟩
  match hr : retryAfter with
  | none => exact Or.inr ⟨by simp, by simp [handle429]⟩
  | some h =>
    by_cases hd : pyIsDigit h
    · exact Or.inl ⟨h, rfl, hd, by simp [handle429, hd]⟩
    · refine Or.inr ⟨?_, ?_⟩
      · intro h' hh'; cases hh'; simpa using hd
      · simp [handle429, hd]

/-- C5: the claim says the thread sleeps past the cooldown window and then an
extra random jitter of roughly 0.1–0.5 seconds.  The code sleeps exactly the
remaining window: with `rate_limit_delay = 3`, `last_request_time = 0` and
`now = 0` the slept duration is exactly `3`, and no jitter `j ∈ [1/10, 1/2]`
satisfies `3 = 3 + j`. -/
theorem rateLimitWait_no_jitter :
    (rateLimitWait 0 ⟨3, 0⟩).1 = 3 ∧
    ¬ ∃ j : ℚ, 1/10 ≤ j ∧ j ≤ 1/2 ∧
        (rateLimitWait 0 ⟨3, 0⟩).1 = (3 - (0 - 0)) + j := by
  have h1 : (rateLimitWait 0 ⟨3, 0⟩).1 = 3 := by
    norm_num [rateLimitWait]
  refine ⟨h1, ?_⟩
  rintro ⟨j, hj1, _, hj3⟩
  rw [h1] at hj3
  linarith

/-- C5 (amended): before a request, while the cooldown window is still active
the thread sleeps exactly the remaining window — it proceeds exactly at
`last_request_time + rate_limit_delay`, with no jitter added — and the delay is
reset to `0`, so one 429 causes exactly one cooldown application. -/
theorem rateLimitWait_blocks_until_window (now : ℚ) (st : RateLimitState)
    (hpos : 0 < st.rateLimitDelay)
    (hactive : 0 < st.rateLimitDelay - (now - st.lastRequestTime)) :
    (rateLimitWait now st).1 = st.rateLimitDelay - (now - st.lastRequestTime) ∧
    now + (rateLimitWait now st).1 = st.lastRequestTime + st.rateLimitDelay ∧
    (rateLimitWait now st).2.rateLimitDelay = 0 := by
  have hnle : ¬ st.rateLimitDelay ≤ 0 := not_le.mpr hpos
  refine ⟨?_, ?_, ?_⟩ <;> simp [rateLimitWait, hnle, hactive]
  ring

/-- Witness for `rateLimitWait_blocks_until_window` at `now = 0`,
`st = ⟨3, 0⟩`. -/
theorem rateLimitWait_blocks_until_window_witness :
    (rateLimitWait 0 ⟨3, 0⟩).1 = (3 : ℚ) - (0 - 0) ∧
    (0 : ℚ) + (rateLimitWait 0 ⟨3, 0⟩).1 = 0 + 3 ∧
    (rateLimitWait 0 ⟨3, 0⟩).2.rateLimitDelay = 0 := by
  have h := rateLimitWait_blocks_until_window 0 ⟨3, 0⟩ (by norm_num) (by norm_num)
  simpa using h

/-- In every recursive continuation of the pagination loop `current_params`
has been reset to `{}`, so the `params` argument of each request there is
`None` (full next-link URL) or the empty dict (relative next link). -/
theorem callParams_reset (baseUrl url : String) (pc : Nat) (hpc : 1 ≤ pc) :
    callParams baseUrl url [] pc = none ∨ callParams baseUrl url [] pc = some [] := by
  have h0 : pc ≠ 0 := by omega
  unfold callParams
  by_cases hf : isFullUrl baseUrl url
  · simp [hf, h0]
  · simp [hf]

/-- Every request in a pagination-loop trace started with empty
`current_params` and a positive `page_count` carries no caller params. -/
theorem paginateLoop_params_reset {α : Type} (env : String → Option (PageJson α))
    (baseUrl : String) (hasDataKey : Bool) (maxPages : Option Nat) :
    ∀ (fuel : Nat) (url : String) (pc : Nat), 1 ≤ pc →
      ∀ r ∈ (paginateLoop env baseUrl hasDataKey maxPages fuel (some url) [] pc).1,
        r.params = none ∨ r.params = some [] := by
  intro fuel
  induction fuel with
  | zero => intro url pc hpc r hr; simp [paginateLoop] at hr
  | succ fuel ih =>
    intro url pc hpc r hr
    by_cases hmp : underMaxPages maxPages pc
    · rcases henv : env (callEndpoint baseUrl url) with _ | page
      · simp [paginateLoop, hmp, henv] at hr
        subst hr
        exact callParams_reset baseUrl url pc hpc
      · rcases hstep : pageStep hasDataKey page with _ | ys
        · simp [paginateLoop, hmp, henv, hstep] at hr
          subst hr
          exact callParams_reset baseUrl url pc hpc
        · rcases hlink : page.nextLink with _ | l
          · simp [paginateLoop, hmp, henv, hstep, hlink] at hr
            subst hr
            exact callParams_reset baseUrl url pc hpc
          · simp [paginateLoop, hmp, henv, hstep, hlink] at hr
            rcases hr with hr | hr
            · subst hr
              exact callParams_reset baseUrl url pc hpc
            · exact ih l (pc + 1) (by omega) r hr
    · simp [paginateLoop, hmp] at hr

/-- The first request of any pagination-loop trace targets the endpoint
derived from the pending URL. -/
theorem paginateLoop_get_zero {α : Type} (env : String → Option (PageJson α))
    (baseUrl : String) (hasDataKey : Bool) (maxPages : Option Nat)
    (fuel : Nat) (url : String) (cp : Params) (pc : Nat) (r : Request)
    (hr : (paginateLoop env baseUrl hasDataKey maxPages fuel (some url) cp pc).1[0]? = some r) :
    r.endpoint = callEndpoint baseUrl url := by
  cases fuel with
  | zero => simp [paginateLoop] at hr
  | succ fuel =>
    by_cases hmp : underMaxPages maxPages pc
    · rcases henv : env (callEndpoint baseUrl url) with _ | page
      · simp [paginateLoop, hmp, henv] at hr
        simp [← hr]
      · rcases hstep : pageStep hasDataKey page with _ | ys
        · simp [paginateLoop, hmp, henv, hstep] at hr
          simp [← hr]
        · rcases hlink : page.nextLink with _ | l
          · simp [paginateLoop, hmp, henv, hstep, hlink] at hr
            simp [← hr]
          · simp [paginateLoop, hmp, henv, hstep, hlink] at hr
            simp [← hr]
    · simp [paginateLoop, hmp] at hr

/-- Consecutive requests in a pagination-loop trace are linked: the later
one's endpoint is derived from the next-link of the page the earlier request
returned. -/
theorem paginateLoop_chain {α : Type} (env : String → Option (PageJson α))
    (baseUrl : String) (hasDataKey : Bool) (maxPages : Option Nat) :
    ∀ (fuel : Nat) (url : String) (cp : Params) (pc : Nat) (j : Nat) (r r' : Request),
      (paginateLoop env baseUrl hasDataKey maxPages fuel (some url) cp pc).1[j]? = some r →
      (paginateLoop env baseUrl hasDataKey maxPages fuel (some url) cp pc).1[j + 1]? = some r' →
      ∃ page l, env r.endpoint = some page ∧ page.nextLink = some l ∧
        r'.endpoint = callEndpoint baseUrl l := by
  intro fuel
  induction fuel with
  | zero => intro url cp pc j r r' h1 h2; simp [paginateLoop] at h1
  | succ fuel ih =>
    intro url cp pc j r r' h1 h2
    by_cases hmp : underMaxPages maxPages pc
    · rcases henv : env (callEndpoint baseUrl url) with _ | page
      · rw [show (paginateLoop env baseUrl hasDataKey maxPages (fuel + 1) (some url) cp pc).1
              = [⟨callEndpoint baseUrl url, callParams baseUrl url cp pc⟩] from by
            simp [paginateLoop, hmp, henv]] at h1 h2
        simp at h2
      · rcases hstep : pageStep hasDataKey page with _ | ys
        · rw [show (paginateLoop env baseUrl hasDataKey maxPages (fuel + 1) (some url) cp pc).1
                = [⟨callEndpoint baseUrl url, callParams baseUrl url cp pc⟩] from by
              simp [paginateLoop, hmp, henv, hstep]] at h1 h2
          simp at h2
        · rcases hlink : page.nextLink with _ | l
          · rw [show (paginateLoop env baseUrl hasDataKey maxPages (fuel + 1) (some url) cp pc).1
                  = [⟨callEndpoint baseUrl url, callParams baseUrl url cp pc⟩] from by
                simp [paginateLoop, hmp, henv, hstep, hlink]] at h1 h2
            simp at h2
          · rw [show (paginateLoop env baseUrl hasDataKey maxPages (fuel + 1) (some url) cp pc).1
                  = ⟨callEndpoint baseUrl url, callParams baseUrl url cp pc⟩ ::
                    (paginateLoop env baseUrl hasDataKey maxPages fuel (some l) [] (pc + 1)).1
                from by
                simp [paginateLoop, hmp, henv, hstep, hlink]] at h1 h2
            cases j with
            | zero =>
              simp at h1 h2
              refine ⟨page, l, ?_, hlink, ?_⟩
              · rw [← h1]; exact henv
              · exact paginateLoop_get_zero env baseUrl hasDataKey maxPages fuel l [] (pc + 1) r' h2
            | succ k =>
              simp only [List.getElem?_cons_succ] at h1 h2
              exact ih l [] (pc + 1) k r r' h1 h2
    · rw [show (paginateLoop env baseUrl hasDataKey maxPages (fuel + 1) (some url) cp pc).1
            = [] from by simp [paginateLoop, hmp]] at h1
      simp at h1

/-- C1: in every `APIClient.paginate` run, only the first request carries the
caller-supplied `params`; each later request carries `None` or the reset
empty dict — never the caller's params — and targets exactly the endpoint
derived from the next-link the previous response returned. -/
theorem paginate_param_isolation {α : Type} (env : String → Option (PageJson α))
    (baseUrl endpoint : String) (ps : Params) (hasDataKey : Bool)
    (maxPages : Option Nat) (fuel : Nat) (i : Nat) (r r' : Request)
    (h1 : (paginate env baseUrl endpoint ps hasDataKey maxPages fuel).1[i]? = some r)
    (h2 : (paginate env baseUrl endpoint ps hasDataKey maxPages fuel).1[i + 1]? = some r') :
    (r'.params = none ∨ r'.params = some []) ∧
    ∃ page l, env r.endpoint = some page ∧ page.nextLink = some l ∧
      r'.endpoint = callEndpoint baseUrl l := by
  constructor
  · -- r' sits at index ≥ 1, hence inside a recursive continuation
    unfold paginate at h2
    cases fuel with
    | zero => simp [paginateLoop] at h2
    | succ fuel =>
      by_cases hmp : underMaxPages maxPages 0
      · rcases henv : env (callEndpoint baseUrl endpoint) with _ | page
        · rw [show (paginateLoop env baseUrl hasDataKey maxPages (fuel + 1)
                (some endpoint) ps 0).1
                = [⟨callEndpoint baseUrl endpoint, callParams baseUrl endpoint ps 0⟩]
              from by simp [paginateLoop, hmp, henv]] at h2
          simp at h2
        · rcases hstep : pageStep hasDataKey page with _ | ys
          · rw [show (paginateLoop env baseUrl hasDataKey maxPages (fuel + 1)
                  (some endpoint) ps 0).1
                  = [⟨callEndpoint baseUrl endpoint, callParams baseUrl endpoint ps 0⟩]
                from by simp [paginateLoop, hmp, henv, hstep]] at h2
            simp at h2
          · rcases hlink : page.nextLink with _ | l
            · rw [show (paginateLoop env baseUrl hasDataKey maxPages (fuel + 1)
                    (some endpoint) ps 0).1
                    = [⟨callEndpoint baseUrl endpoint, callParams baseUrl endpoint ps 0⟩]
                  from by simp [paginateLoop, hmp, henv, hstep, hlink]] at h2
              simp at h2
            · rw [show (paginateLoop env baseUrl hasDataKey maxPages (fuel + 1)
                    (some endpoint) ps 0).1
                    = ⟨callEndpoint baseUrl endpoint, callParams baseUrl endpoint ps 0⟩ ::
                      (paginateLoop env baseUrl hasDataKey maxPages fuel (some l) [] 1).1
                  from by simp [paginateLoop, hmp, henv, hstep, hlink]] at h2
              simp only [List.getElem?_cons_succ] at h2
              have hmem : r' ∈ (paginateLoop env baseUrl hasDataKey maxPages fuel
                  (some l) [] 1).1 := by
                exact List.getElem?_mem h2
              exact paginateLoop_params_reset env baseUrl hasDataKey maxPages fuel l 1
                (le_refl 1) r' hmem
      · rw [show (paginateLoop env baseUrl hasDataKey maxPages (fuel + 1)
              (some endpoint) ps 0).1 = [] from by simp [paginateLoop, hmp]] at h2
        simp at h2
  · exact paginateLoop_chain env baseUrl hasDataKey maxPages fuel endpoint ps 0 i r r' h1 h2

/-- Witness for `paginate_param_isolation`: in the two-page demonstration run
the second request carries `None` params (no caller params) and targets the
endpoint cut from the next-link of the first response. -/
theorem paginate_param_isolation_witness :
    (((⟨"rest/orgs?starting_after=abc", none⟩ : Request).params = none ∨
      (⟨"rest/orgs?starting_after=abc", none⟩ : Request).params = some []) ∧
     ∃ page l,
       demoEnv (⟨"/rest/orgs", some demoParams⟩ : Request).endpoint = some page ∧
       page.nextLink = some l ∧
       (⟨"rest/orgs?starting_after=abc", none⟩ : Request).endpoint
         = callEndpoint demoBase l) :=
  paginate_param_isolation demoEnv demoBase "/rest/orgs" demoParams true none 5 0
    ⟨"/rest/orgs", some demoParams⟩ ⟨"rest/orgs?starting_after=abc", none⟩
    (by decide) (by decide)

/-- Length/count bookkeeping of the `as_completed` collection loop: the
successes and the error logs partition the outcomes, and the error-log count
is the number of failed outcomes. -/
theorem collectResults_spec {ε α : Type} (l : List (Except ε α)) :
    (collectResults l).1.length + (collectResults l).2 = l.length ∧
    (collectResults l).2 = countErr l := by
  induction l with
  | nil => simp [collectResults, countErr]
  | cons x rest ih =>
    cases x with
    | ok a =>
      simp only [collectResults, countErr, List.countP_cons] at *
      constructor <;> simp <;> omega
    | error e =>
      simp only [collectResults, countErr, List.countP_cons] at *
      constructor <;> simp <;> omega

/-- Collected over any completion-order permutation of the submitted tasks:
the survivors number the submitted tasks minus the failures, and the
error-log count equals the failure count. -/
theorem collectResults_perm_counts {ε α : Type}
    (submitted completed : List (Except ε α)) (hperm : completed.Perm submitted) :
    (collectResults completed).1.length = submitted.length - countErr submitted ∧
    (collectResults completed).2 = countErr submitted := by
  obtain ⟨hs1, hs2⟩ := collectResults_spec completed
  have hcount : countErr completed = countErr submitted := by
    unfold countErr
    exact hperm.countP_eq _
  have hlen : completed.length = submitted.length := hperm.length_eq
  have hK : countErr submitted ≤ submitted.length := by
    unfold countErr
    exact List.countP_le_length _
  constructor <;> omega

/-- C3: the claim says N payloads with K construction-task failures always
resolve to N−K elements; but `Organization.get_projects` skips payloads
without an id before submitting any construction task (organization.py
lines 402–405): with the two payloads below (one id-less) pagination
returns N = 2, the submitted task outcomes are `[Except.ok 1]` with K = 0
failures, and the resolved list has 1 element, not `2 − 0 = 2`. -/
theorem orgGetProjects_skips_idless :
    List.map (fun _ => (Except.ok 1 : Except String Nat))
        (orgProjectsSubmitted [⟨some "a"⟩, ⟨none⟩]) = [Except.ok 1] ∧
    countErr (List.map (fun _ => (Except.ok 1 : Except String Nat))
        (orgProjectsSubmitted [⟨some "a"⟩, ⟨none⟩])) = 0 ∧
    (orgGetProjects (Except.ok [⟨some "a"⟩, ⟨none⟩])
        [Except.ok 1]).returned.length = 1 ∧
    (1 : Nat) ≠ [(⟨some "a"⟩ : OrgProjPayload), ⟨none⟩].length - 0 := by
  refine ⟨rfl, rfl, rfl, by decide⟩

/-- C3 (amended): for a one-to-many resolution in which pagination returns
N child payloads of which M are submitted for construction — M = N for
`GroupPydanticModel.fetch_organizations`, while `Organization.get_projects`
submits only the payloads with a truthy id, warning on and skipping the
rest — and exactly K of the submitted concurrent tasks fail, in any
completion order: the resolved (and cached) list has exactly M−K elements,
K error log lines are emitted, and no individual failure aborts the batch
or propagates. -/
theorem fetch_partial_failure_counts {π α β : Type} (ps : Params)
    (items : List π) (construct : π → Except String α)
    (completed : List (Except String α))
    (orgItems : List OrgProjPayload) (constructP : String → Except String β)
    (completedP : List (Except String β))
    (hperm : completed.Perm (items.map construct))
    (hne : items.isEmpty = false)
    (hpermP : completedP.Perm ((orgProjectsSubmitted orgItems).map constructP))
    (hneP : orgItems.isEmpty = false) :
    ((fetchOrganizations none ps (Except.ok items) completed).returned.length
        = items.length - countErr (items.map construct) ∧
      (fetchOrganizations none ps (Except.ok items) completed).errorLogs
        = countErr (items.map construct) ∧
      (fetchOrganizations none ps (Except.ok items) completed).cache
        = some (fetchOrganizations none ps (Except.ok items) completed).returned) ∧
    ((orgGetProjects (Except.ok orgItems) completedP).returned.length
        = (orgProjectsSubmitted orgItems).length
          - countErr ((orgProjectsSubmitted orgItems).map constructP) ∧
      (orgGetProjects (Except.ok orgItems) completedP).errorLogs
        = countErr ((orgProjectsSubmitted orgItems).map constructP) ∧
      (orgGetProjects (Except.ok orgItems) completedP).cache
        = some (orgGetProjects (Except.ok orgItems) completedP).returned) := by
  obtain ⟨ha1, ha2⟩ := collectResults_perm_counts (items.map construct) completed hperm
  obtain ⟨hb1, hb2⟩ :=
    collectResults_perm_counts ((orgProjectsSubmitted orgItems).map constructP)
      completedP hpermP
  refine ⟨⟨?_, ?_, ?_⟩, ⟨?_, ?_, ?_⟩⟩
  · simp only [fetchOrganizations, hne, Bool.false_eq_true, if_false]
    simpa using ha1
  · simp only [fetchOrganizations, hne, Bool.false_eq_true, if_false]
    simpa using ha2
  · simp [fetchOrganizations, hne]
  · simp only [orgGetProjects, hneP, Bool.false_eq_true, if_false]
    simpa using hb1
  · simp only [orgGetProjects, hneP, Bool.false_eq_true, if_false]
    simpa using hb2
  · simp [orgGetProjects, hneP]

/-- Witness for `fetch_partial_failure_counts`: `fetch_organizations` with
three payloads and one failing construction observed out of submission
order (2 = 3−1 survivors, one error log), and `get_projects` with three
payloads, one id-less (skipped), one failing construction (1 = 2−1
survivors, one error log). -/
theorem fetch_partial_failure_counts_witness :
    (((fetchOrganizations none [] (Except.ok [0, 1, 2])
          [Except.ok 0, Except.ok 2, Except.error "boom"]).returned.length
        = [0, 1, 2].length - countErr ([0, 1, 2].map demoConstruct) ∧
      (fetchOrganizations none [] (Except.ok [0, 1, 2])
          [Except.ok 0, Except.ok 2, Except.error "boom"]).errorLogs
        = countErr ([0, 1, 2].map demoConstruct) ∧
      (fetchOrganizations none [] (Except.ok [0, 1, 2])
          [Except.ok 0, Except.ok 2, Except.error "boom"]).cache
        = some (fetchOrganizations none [] (Except.ok [0, 1, 2])
            [Except.ok 0, Except.ok 2, Except.error "boom"]).returned) ∧
     ((orgGetProjects (Except.ok demoOrgItems)
          [Except.ok "a", Except.error "bad"]).returned.length
        = (orgProjectsSubmitted demoOrgItems).length
          - countErr ((orgProjectsSubmitted demoOrgItems).map demoConstructP) ∧
      (orgGetProjects (Except.ok demoOrgItems)
          [Except.ok "a", Except.error "bad"]).errorLogs
        = countErr ((orgProjectsSubmitted demoOrgItems).map demoConstructP) ∧
      (orgGetProjects (Except.ok demoOrgItems)
          [Except.ok "a", Except.error "bad"]).cache
        = some (orgGetProjects (Except.ok demoOrgItems)
            [Except.ok "a", Except.error "bad"]).returned)) :=
  fetch_partial_failure_counts [] [0, 1, 2] demoConstruct
    [Except.ok 0, Except.ok 2, Except.error "boom"]
    demoOrgItems demoConstructP [Except.ok "a", Except.error "bad"]
    (by
      have hmap : List.map demoConstruct [0, 1, 2]
          = [Except.ok 0, Except.error "boom", Except.ok 2] := rfl
      rw [hmap]
      exact List.Perm.cons _ (List.Perm.swap _ _ _))
    (by decide)
    (by
      have hmap : (orgProjectsSubmitted demoOrgItems).map demoConstructP
          = [Except.ok "a", Except.error "bad"] := rfl
      rw [hmap])
    (by decide)

/-- C2: the claim says an explicit fetch with new filter params never
returns the cache; but `GroupPydanticModel.fetch_organizations` with a
non-empty params dict and a populated cache returns the cached list without
querying the API. -/
theorem fetchOrganizations_ignores_params :
    (fetchOrganizations (some [0]) [("limit", "10")] (Except.ok ([1] : List Nat))
        [Except.ok 1]).returned = [0] ∧
    (fetchOrganizations (some [0]) [("limit", "10")] (Except.ok ([1] : List Nat))
        [Except.ok 1]).queried = false :=
  ⟨rfl, rfl⟩

/-- C2 (amended): once cached, `fetch_organizations` and
`ProjectPydanticModel.fetch_issues` return the cached list for every params
dict, without re-querying; only `GroupPydanticModel.fetch_issues` bypasses
the cache when params are supplied, and a no-params call on a populated
cache never re-queries. -/
theorem fetch_cache_discipline {π α : Type} (l : List α) (ps : Params)
    (pages : Except String (List π)) (completed : List (Except String α))
    (fromOrg : List α) (hps : ps ≠ []) :
    fetchOrganizations (some l) ps pages completed = ⟨l, some l, false, 0⟩ ∧
    projectFetchIssues (some l) ps fromOrg = ⟨l, some l, false, 0⟩ ∧
    (groupFetchIssues (some l) ps pages completed).queried = true ∧
    groupFetchIssues (some l) ([] : Params) pages completed = ⟨l, some l, false, 0⟩ := by
  refine ⟨rfl, rfl, ?_, rfl⟩
  match ps, hps with
  | p :: pt, _ =>
    match pages with
    | Except.error e => rfl
    | Except.ok items =>
      by_cases hi : items.isEmpty <;> simp [groupFetchIssues, hi]

/-- Witness for `fetch_cache_discipline` on concrete one-element caches and
a non-empty params dict. -/
theorem fetch_cache_discipline_witness :
    fetchOrganizations (some [0]) [("limit", "10")] (Except.ok ([1] : List Nat))
        [Except.ok 1] = ⟨[0], some [0], false, 0⟩ ∧
    projectFetchIssues (some [0]) [("limit", "10")] [2] = ⟨[0], some [0], false, 0⟩ ∧
    (groupFetchIssues (some [0]) [("limit", "10")] (Except.ok ([1] : List Nat))
        [Except.ok 1]).queried = true ∧
    groupFetchIssues (some [0]) ([] : Params) (Except.ok ([1] : List Nat))
        [Except.ok 1] = ⟨[0], some [0], false, 0⟩ :=
  fetch_cache_discipline [0] [("limit", "10")] (Except.ok [1]) [Except.ok 1] [2]
    (by decide)

/-- C10: `GroupPydanticModel.fetch_issues` with a non-empty params dict
never writes the cache: on the success, empty-result and pagination-error
paths alike it leaves the cached issue list exactly as it was, re-queries
the API, and returns precisely what an uncached parameterized fetch of the
same pages returns. -/
theorem groupFetchIssues_param_frame {π α : Type} (cache : Option (List α))
    (ps : Params) (pages : Except String (List π))
    (completed : List (Except String α)) (hps : ps ≠ []) :
    (groupFetchIssues cache ps pages completed).cache = cache ∧
    (groupFetchIssues cache ps pages completed).queried = true ∧
    (groupFetchIssues cache ps pages completed).returned
      = (groupFetchIssues none ps pages completed).returned := by
  match ps, hps with
  | p :: pt, _ =>
    match cache with
    | none =>
      match pages with
      | Except.error e => exact ⟨rfl, rfl, rfl⟩
      | Except.ok items =>
        by_cases hi : items.isEmpty <;> refine ⟨?_, ?_, ?_⟩ <;>
          simp [groupFetchIssues, hi]
    | some c =>
      match pages with
      | Except.error e => exact ⟨rfl, rfl, rfl⟩
      | Except.ok items =>
        by_cases hi : items.isEmpty <;> refine ⟨?_, ?_, ?_⟩ <;>
          simp [groupFetchIssues, hi]

/-- Witness for `groupFetchIssues_param_frame`: populated cache `[5]`,
params supplied, two payloads with one failing construction — the cache
stays `[5]`, the API is queried, the fresh list is returned. -/
theorem groupFetchIssues_param_frame_witness :
    (groupFetchIssues (some [5]) [("severity", "high")] (Except.ok ([1, 2] : List Nat))
        [Except.ok 9, Except.error "x"]).cache = some [5] ∧
    (groupFetchIssues (some [5]) [("severity", "high")] (Except.ok ([1, 2] : List Nat))
        [Except.ok 9, Except.error "x"]).queried = true ∧
    (groupFetchIssues (some [5]) [("severity", "high")] (Except.ok ([1, 2] : List Nat))
        [Except.ok 9, Except.error "x"]).returned
      = (groupFetchIssues none [("severity", "high")] (Except.ok ([1, 2] : List Nat))
          [Except.ok 9, Except.error "x"]).returned :=
  groupFetchIssues_param_frame (some [5]) [("severity", "high")]
    (Except.ok [1, 2]) [Except.ok 9, Except.error "x"] (by decide)

/-- C9: auto-discovery (`get_instance` with no `group_id`) raises a
catchable `ValueError` whenever the accessible-group list does not have
exactly one element — it never silently picks a candidate. -/
theorem getInstance_requires_disambiguation
    (fetchById : String → Except String GroupPayload)
    (allGroups : List GroupPayload) (h : allGroups.length ≠ 1) :
    ∃ msg, getInstance none fetchById allGroups = Except.error msg := by
  match allGroups, h with
  | [], _ => exact ⟨_, rfl⟩
  | a :: b :: rest, _ => exact ⟨_, rfl⟩
  | [a], h => simp at h

/-- Witness for `getInstance_requires_disambiguation`: two accessible
groups and no explicit id. -/
theorem getInstance_requires_disambiguation_witness :
    ∃ msg, getInstance none (fun _ => Except.error "unused")
        [⟨"a", "group", some "ga"⟩, ⟨"b", "group", some "gb"⟩]
      = Except.error msg :=
  getInstance_requires_disambiguation (fun _ => Except.error "unused")
    [⟨"a", "group", some "ga"⟩, ⟨"b", "group", some "gb"⟩] (by decide)

/-- C8: a summary payload (no `attributes`) constructed with
`fetch_full_details_if_summary=True` is hydrated from the single-item
endpoint first, so the constructed project's attributes are exactly the
ones that endpoint returned for the payload's id. -/
theorem projectFromApiResponse_hydrates {A R : Type}
    (env : String → Except String (Option (ProjPayload A R)))
    (orgId : String) (d full : ProjPayload A R) (pid fid ft : String) (attrs : A)
    (hsum : d.attributes = none) (hid : d.id = some pid)
    (henv : env (projectEndpoint orgId pid) = Except.ok (some full))
    (hfid : full.id = some fid) (hft : full.type = some ft)
    (hfa : full.attributes = some attrs) :
    projectFromApiResponse env orgId d true
      = Except.ok ⟨fid, ft, attrs, full.relationships⟩ := by
  simp [projectFromApiResponse, hsum, hid, henv, validateProject, hfid, hft, hfa]

/-- Summary payload of the hydration demonstration: id and type only. -/
def demoSummary : ProjPayload Nat Unit :=
  ⟨some "p1", some "project", none, none⟩

/-- Fully-attributed payload the single-item endpoint returns for `p1`. -/
def demoFull : ProjPayload Nat Unit :=
  ⟨some "p1", some "project", some 7, some ()⟩

/-- Single-item environment of the hydration demonstration. -/
def demoProjEnv : String → Except String (Option (ProjPayload Nat Unit)) :=
  fun ep => if ep = projectEndpoint "o1" "p1" then Except.ok (some demoFull)
            else Except.error "404"

/-- Witness for `projectFromApiResponse_hydrates` on the concrete summary
payload `p1`. -/
theorem projectFromApiResponse_hydrates_witness :
    projectFromApiResponse demoProjEnv "o1" demoSummary true
      = Except.ok ⟨"p1", "project", 7, demoFull.relationships⟩ :=
  projectFromApiResponse_hydrates demoProjEnv "o1" demoSummary demoFull
    "p1" "p1" "project" 7 rfl rfl (by rw [demoProjEnv]; simp) rfl rfl rfl

/-- C6: with a project stub and an Organization context — either already
attached, or recovered by matching the issue's own organization stub
against the Group's cached organization list — project resolution delegates
to that Organization's get-one-project-by-id call and yields the project
with the stub's id.  (`IssuePydanticModel` is modelled from the spec; the
delegate is `Organization.get_project` from `organization.py`.) -/
theorem issueGetProject_resolves (env : String → Except String (Option ProjRef))
    (issue : IssueCtx) (group : GroupCtx) (pid oid : String)
    (hcache : issue.cachedProject = none)
    (hstub : issue.projectStub = some pid)
    (hctx : issue.attachedOrg = some oid ∨
      (issue.attachedOrg = none ∧ issue.orgStub = some oid ∧
        ∃ orgs, group.organizations = some orgs ∧ oid ∈ orgs))
    (henv : env (projectEndpoint oid pid) = Except.ok (some ⟨pid⟩)) :
    issueGetProject env issue group = (some ⟨pid⟩, 0) := by
  have hres : resolveOrgContext issue group = some oid := by
    rcases hctx with h | ⟨h1, h2, orgs, h3, h4⟩
    · simp [resolveOrgContext, h]
    · simp [resolveOrgContext, h1, h2, h3, h4]
  simp [issueGetProject, hcache, hstub, hres, orgGetProject, henv]

/-- Witness for `issueGetProject_resolves`: issue at Group scope (no
attached Organization) with stubs `p1`/`o1`, and `o1` present in the
Group's cached organization list. -/
theorem issueGetProject_resolves_witness :
    issueGetProject
        (fun ep => if ep = projectEndpoint "o1" "p1"
          then Except.ok (some ⟨"p1"⟩) else Except.error "404")
        ⟨none, none, some "p1", some "o1"⟩ ⟨some ["o0", "o1"]⟩
      = (some ⟨"p1"⟩, 0) :=
  issueGetProject_resolves
    (fun ep => if ep = projectEndpoint "o1" "p1"
      then Except.ok (some ⟨"p1"⟩) else Except.error "404")
    ⟨none, none, some "p1", some "o1"⟩ ⟨some ["o0", "o1"]⟩ "p1" "o1"
    rfl rfl (Or.inr ⟨rfl, rfl, ["o0", "o1"], rfl, by decide⟩) (by simp)

/-- C7: when no Organization context can be established — none attached and
the Group's cached organization list does not contain the issue's
organization stub — resolution returns `none` with exactly one warning log
line; the resolution function is total, so nothing is raised.
(`IssuePydanticModel` is modelled from the spec.) -/
theorem issueGetProject_no_context (env : String → Except String (Option ProjRef))
    (issue : IssueCtx) (group : GroupCtx) (pid : String)
    (hcache : issue.cachedProject = none)
    (hstub : issue.projectStub = some pid)
    (hatt : issue.attachedOrg = none)
    (hmiss : ∀ oid, issue.orgStub = some oid →
      ∀ orgs, group.organizations = some orgs → oid ∉ orgs) :
    issueGetProject env issue group = (none, 1) := by
  have hres : resolveOrgContext issue group = none := by
    rw [resolveOrgContext, hatt]
    match hos : issue.orgStub with
    | none => rfl
    | some oid =>
      match hgo : group.organizations with
      | none => rfl
      | some orgs =>
        have : oid ∉ orgs := hmiss oid hos orgs hgo
        simp [this]
  simp [issueGetProject, hcache, hstub, hres]

/-- Witness for `issueGetProject_no_context`: same issue but the Group's
cached organization list does not contain `o1`. -/
theorem issueGetProject_no_context_witness :
    issueGetProject (fun _ => Except.error "404")
        ⟨none, none, some "p1", some "o1"⟩ ⟨some ["o0"]⟩
      = (none, 1) :=
  issueGetProject_no_context (fun _ => Except.error "404")
    ⟨none, none, some "p1", some "o1"⟩ ⟨some ["o0"]⟩ "p1"
    rfl rfl rfl
    (by intro oid hos orgs hgo
        cases hos
        cases hgo
        decide)
